import Mathlib

/-!
Verification of the market-making order-lifecycle engine of this repository
(`bots/crypto/cex/mm/mm-mono-side.ts` and `bots/crypto/cex/mm/mm-both-side.ts`).

The TypeScript source is shallowly embedded: JavaScript numbers are modelled
as rationals (`ℚ`), `Math.round` (round half toward positive infinity) is
Mathlib's `round`, asynchronous exchange calls are modelled by passing their
observed results explicitly (an observation record per tick), and the list of
exchange interactions a code path performs is recorded as an action trace.
-/

namespace AlgoVista

/-- Quoting side of the bot configuration (`"bid" | "ask"` in the source). -/
inductive Side where
  | bid
  | ask
deriving DecidableEq, Repr

/-- Exchange order side (`"buy" | "sell"` in the source). -/
inductive OrderSide where
  | buy
  | sell
deriving DecidableEq, Repr

/-- The mapping `side === "bid" ? "buy" : "sell"` used throughout both bots. -/
def ourOrderSide : Side → OrderSide
  | Side.bid => OrderSide.buy
  | Side.ask => OrderSide.sell

/-- One planned price level before precision normalization: the element
`{ price, quoteAmount }` produced by `calculateOrderDistribution`. -/
structure Rung where
  price : ℚ
  quoteAmount : ℚ
deriving DecidableEq, Repr

/-- `calculateOrderDistribution` from `mm-mono-side.ts` (lines 168-197); the
copy in `mm-both-side.ts` (lines 108-137) is textually identical. -/
def calculateOrderDistribution (referencePrice : ℚ) (side : Side)
    (totalQuoteAmount spreadPercent : ℚ) (numberOfOrders : ℕ) : List Rung :=
  (List.range numberOfOrders).map fun (i : ℕ) =>
    let quoteAmountPerOrder := totalQuoteAmount / (numberOfOrders : ℚ)
    let spreadDecimal := spreadPercent / 100
    let spreadStep := spreadDecimal / (numberOfOrders : ℚ)
    let priceOffset := spreadStep * ((i : ℚ) + 1/2)
    let orderPrice :=
      match side with
      | Side.bid => referencePrice * (1 - priceOffset)
      | Side.ask => referencePrice * (1 + priceOffset)
    { price := orderPrice, quoteAmount := quoteAmountPerOrder }

theorem calculateOrderDistribution_length (referencePrice : ℚ) (side : Side)
    (totalQuoteAmount spreadPercent : ℚ) (numberOfOrders : ℕ) :
    (calculateOrderDistribution referencePrice side totalQuoteAmount spreadPercent
      numberOfOrders).length = numberOfOrders := by
  unfold calculateOrderDistribution
  rw [List.length_map, List.length_range]

theorem calculateOrderDistribution_sum (referencePrice : ℚ) (side : Side)
    (totalQuoteAmount spreadPercent : ℚ) (numberOfOrders : ℕ)
    (hn : 1 ≤ numberOfOrders) :
    ((calculateOrderDistribution referencePrice side totalQuoteAmount spreadPercent
      numberOfOrders).map Rung.quoteAmount).sum = totalQuoteAmount := by
  have hne : (numberOfOrders : ℚ) ≠ 0 :=
    Nat.cast_ne_zero.mpr (Nat.one_le_iff_ne_zero.mp hn)
  have hconst : ∀ b ∈ (calculateOrderDistribution referencePrice side totalQuoteAmount
      spreadPercent numberOfOrders).map Rung.quoteAmount,
      b = totalQuoteAmount / (numberOfOrders : ℚ) := by
    intro b hb
    simp only [calculateOrderDistribution, List.map_map, List.mem_map,
      List.mem_range, Function.comp] at hb
    obtain ⟨i, _, rfl⟩ := hb
    rfl
  rw [List.eq_replicate_length.mpr hconst, List.sum_replicate, List.length_map,
    calculateOrderDistribution_length, nsmul_eq_mul, mul_div_cancel₀ _ hne]

/-- C2: the i-th rung of the planned ladder sits at
`reference * (1 - offset_i)` (bid) or `reference * (1 + offset_i)` (ask) with
`offset_i = (spreadPercent/100/orderCount) * (i + 0.5)`, and carries
`totalNotional / orderCount`; concretely, side ask, total 10, spread 10 percent,
2 orders at reference 100 yields rungs at 102.50 and 107.50 of notional 5. -/
theorem c2_order_distribution_formula (referencePrice totalQuoteAmount spreadPercent : ℚ)
    (numberOfOrders i : ℕ) (hi : i < numberOfOrders) :
    (calculateOrderDistribution referencePrice Side.ask totalQuoteAmount spreadPercent
        numberOfOrders)[i]? =
      some { price := referencePrice *
               (1 + spreadPercent / 100 / (numberOfOrders : ℚ) * ((i : ℚ) + 1/2)),
             quoteAmount := totalQuoteAmount / (numberOfOrders : ℚ) } ∧
    (calculateOrderDistribution referencePrice Side.bid totalQuoteAmount spreadPercent
        numberOfOrders)[i]? =
      some { price := referencePrice *
               (1 - spreadPercent / 100 / (numberOfOrders : ℚ) * ((i : ℚ) + 1/2)),
             quoteAmount := totalQuoteAmount / (numberOfOrders : ℚ) } ∧
    calculateOrderDistribution 100 Side.ask 10 10 2 =
      [{ price := 205/2, quoteAmount := 5 }, { price := 215/2, quoteAmount := 5 }] := by
  refine ⟨?_, ?_, ?_⟩
  · simp [calculateOrderDistribution, List.getElem?_map, List.getElem?_range, hi]
  · simp [calculateOrderDistribution, List.getElem?_map, List.getElem?_range, hi]
  · norm_num [calculateOrderDistribution, List.range_succ, Rung.mk.injEq]

/-- Witness for C2 at concrete inputs. -/
theorem c2_order_distribution_formula_witness :
    (calculateOrderDistribution 100 Side.ask 10 10 2)[0]? =
      some { price := 100 * (1 + 10 / 100 / ((2 : ℕ) : ℚ) * (((0 : ℕ) : ℚ) + 1/2)),
             quoteAmount := 10 / ((2 : ℕ) : ℚ) } :=
  (c2_order_distribution_formula 100 10 10 2 0 (by decide)).1

/-- C5 fails as stated: with `spreadPercent = 0` (a value the claim quantifies
over) every rung sits exactly at the reference price, so the ladder of 2 rungs
at reference 100 is `[100, 100]`, which is not strictly ascending. -/
theorem c5_counterexample :
    ¬ (∀ (referencePrice totalQuoteAmount spreadPercent : ℚ) (numberOfOrders : ℕ),
        1 ≤ numberOfOrders →
        ((calculateOrderDistribution referencePrice Side.ask totalQuoteAmount
          spreadPercent numberOfOrders).map Rung.price).Pairwise (· < ·)) := by
  intro h
  have h2 := h 100 10 0 2 (by norm_num)
  rw [show (calculateOrderDistribution 100 Side.ask 10 0 2).map Rung.price
      = [100, 100] from by norm_num [calculateOrderDistribution, List.range_succ]] at h2
  simp [List.pairwise_cons] at h2

/-- C5 amended: for `orderCount ≥ 1` and a positive reference price and a
positive spread percent, the planner returns exactly `orderCount` rungs, the
rung notionals sum exactly to `totalNotional`, and prices are strictly
ascending for the ask side and strictly descending for the bid side. -/
theorem c5_planner_shape_amended (referencePrice totalQuoteAmount spreadPercent : ℚ)
    (numberOfOrders : ℕ) (hn : 1 ≤ numberOfOrders) (hr : 0 < referencePrice)
    (hsp : 0 < spreadPercent) :
    (∀ side, (calculateOrderDistribution referencePrice side totalQuoteAmount
        spreadPercent numberOfOrders).length = numberOfOrders ∧
      ((calculateOrderDistribution referencePrice side totalQuoteAmount
        spreadPercent numberOfOrders).map Rung.quoteAmount).sum = totalQuoteAmount) ∧
    ((calculateOrderDistribution referencePrice Side.ask totalQuoteAmount
      spreadPercent numberOfOrders).map Rung.price).Pairwise (· < ·) ∧
    ((calculateOrderDistribution referencePrice Side.bid totalQuoteAmount
      spreadPercent numberOfOrders).map Rung.price).Pairwise (· > ·) := by
  have hnq : (0 : ℚ) < (numberOfOrders : ℚ) := by exact_mod_cast hn
  have hc : 0 < spreadPercent / 100 / (numberOfOrders : ℚ) :=
    div_pos (div_pos hsp (by norm_num)) hnq
  refine ⟨fun side => ⟨calculateOrderDistribution_length _ _ _ _ _,
    calculateOrderDistribution_sum _ _ _ _ _ hn⟩, ?_, ?_⟩
  · unfold calculateOrderDistribution
    rw [List.map_map, List.pairwise_map]
    refine (List.pairwise_lt_range numberOfOrders).imp ?_
    intro a b hab
    show referencePrice * (1 + spreadPercent / 100 / (numberOfOrders : ℚ) * ((a : ℚ) + 1/2))
      < referencePrice * (1 + spreadPercent / 100 / (numberOfOrders : ℚ) * ((b : ℚ) + 1/2))
    have hab' : (a : ℚ) < b := by exact_mod_cast hab
    nlinarith [mul_pos (mul_pos hr hc) (sub_pos.mpr hab')]
  · unfold calculateOrderDistribution
    rw [List.map_map, List.pairwise_map]
    refine (List.pairwise_lt_range numberOfOrders).imp ?_
    intro a b hab
    show referencePrice * (1 - spreadPercent / 100 / (numberOfOrders : ℚ) * ((b : ℚ) + 1/2))
      < referencePrice * (1 - spreadPercent / 100 / (numberOfOrders : ℚ) * ((a : ℚ) + 1/2))
    have hab' : (a : ℚ) < b := by exact_mod_cast hab
    nlinarith [mul_pos (mul_pos hr hc) (sub_pos.mpr hab')]

/-- Witness for the amended C5 at concrete inputs. -/
theorem c5_planner_shape_amended_witness :
    ((calculateOrderDistribution 100 Side.ask 10 10 2).map Rung.price).Pairwise (· < ·) ∧
    ((calculateOrderDistribution 100 Side.ask 10 10 2).map Rung.quoteAmount).sum = 10 := by
  have h := c5_planner_shape_amended 100 10 10 2 (by norm_num) (by norm_num) (by norm_num)
  exact ⟨h.2.1, (h.1 Side.ask).2⟩

/-- The candidate order produced by `prepareOrder` when a rung survives
validation (mono-side bot). -/
structure OrderParams where
  price : ℚ
  baseAmount : ℚ
  actualCost : ℚ
  orderSide : OrderSide
deriving DecidableEq, Repr

/-- `prepareOrder` from `mm-mono-side.ts` (lines 202-274).  `Math.round`
(round half toward positive infinity) is Mathlib's `round`.  The source's
`toFixed(decimals)` re-rounding is the identity here because the tick size
used for rounding carries the same number of decimals.  The check of
`quoteAmount` against `minCost` is commented out in the source, so `minCost`
is accepted but never used; the only rejection is `baseAmount < minAmount`. -/
def prepareOrder (side : Side) (orderData : Rung)
    (amountTickSize priceTickSize minPrice minCost minAmount : ℚ) : Option OrderParams :=
  let rawPrice := orderData.price
  let quoteAmount := orderData.quoteAmount
  let rawBaseAmount := quoteAmount / rawPrice
  let price0 := ((round (rawPrice / priceTickSize) : ℤ) : ℚ) * priceTickSize
  let price := if price0 < minPrice then minPrice else price0
  let baseAmount := ((round (rawBaseAmount / amountTickSize) : ℤ) : ℚ) * amountTickSize
  let actualCost := baseAmount * price
  if baseAmount < minAmount then none
  else some { price := price, baseAmount := baseAmount, actualCost := actualCost,
              orderSide := if side = Side.bid then OrderSide.buy else OrderSide.sell }

theorem prepareOrder_example_eval :
    prepareOrder Side.ask { price := 1, quoteAmount := 1 } 1 1 (1/100) 5 0 =
      some { price := 1, baseAmount := 1, actualCost := 1, orderSide := OrderSide.sell } := by
  norm_num [prepareOrder]
  decide

/-- C6 fails as stated: the source's minimum-notional check is commented out,
so `prepareOrder` accepts a candidate whose notional (price times base amount,
here 1) is below the exchange minimum notional (here 5). -/
theorem c6_counterexample :
    ¬ (∀ (side : Side) (orderData : Rung)
        (amountTickSize priceTickSize minPrice minCost minAmount : ℚ) (p : OrderParams),
        prepareOrder side orderData amountTickSize priceTickSize minPrice minCost
          minAmount = some p →
        minCost ≤ p.baseAmount * p.price) := by
  intro h
  have h2 := h Side.ask { price := 1, quoteAmount := 1 } 1 1 (1/100) 5 0
    { price := 1, baseAmount := 1, actualCost := 1, orderSide := OrderSide.sell }
    prepareOrder_example_eval
  norm_num at h2

/-- C6 amended: `prepareOrder` rejects a rung (returns nothing, non-fatally:
the callers skip a rejected rung and keep the rest of the ladder) exactly when
the tick-rounded base amount is below the exchange minimum amount; an accepted
candidate's base amount meets the minimum amount and is a tick multiple, its
price is the tick-rounded price unless clamped up to the exchange minimum
price, and its recorded cost is price times base amount.  The minimum-notional
constraint is not checked (that check is commented out in the source), so an
accepted candidate's notional may be below it. -/
theorem c6_normalizer_amended (side : Side) (orderData : Rung)
    (amountTickSize priceTickSize minPrice minCost minAmount : ℚ) :
    (∀ p, prepareOrder side orderData amountTickSize priceTickSize minPrice minCost
        minAmount = some p →
      minAmount ≤ p.baseAmount ∧
      p.actualCost = p.baseAmount * p.price ∧
      (p.price = minPrice ∨ ∃ k : ℤ, p.price = (k : ℚ) * priceTickSize) ∧
      (∃ m : ℤ, p.baseAmount = (m : ℚ) * amountTickSize)) ∧
    (prepareOrder side orderData amountTickSize priceTickSize minPrice minCost
        minAmount = none ↔
      ((round (orderData.quoteAmount / orderData.price / amountTickSize) : ℤ) : ℚ) *
        amountTickSize < minAmount) := by
  constructor
  · intro p hp
    simp only [prepareOrder] at hp
    split at hp
    · exact absurd hp (by simp)
    · rename_i hge
      obtain rfl := Option.some.inj hp
      refine ⟨not_lt.mp hge, rfl, ?_, ⟨_, rfl⟩⟩
      by_cases hlt : ((round (orderData.price / priceTickSize) : ℤ) : ℚ) * priceTickSize
          < minPrice
      · left
        simp [hlt]
      · right
        exact ⟨round (orderData.price / priceTickSize), by simp [hlt]⟩
  · simp only [prepareOrder]
    split
    · rename_i hlt
      simpa using hlt
    · rename_i hge
      simpa using hge

/-- Witness for the amended C6 at the concrete accepted candidate. -/
theorem c6_normalizer_amended_witness :
    (0 : ℚ) ≤ 1 ∧ (1 : ℚ) = 1 * 1 ∧
    ((1 : ℚ) = 1/100 ∨ ∃ k : ℤ, (1 : ℚ) = (k : ℚ) * 1) ∧
    (∃ m : ℤ, (1 : ℚ) = (m : ℚ) * 1) :=
  (c6_normalizer_amended Side.ask { price := 1, quoteAmount := 1 } 1 1 (1/100) 5 0).1
    { price := 1, baseAmount := 1, actualCost := 1, orderSide := OrderSide.sell }
    prepareOrder_example_eval

attribute [irreducible] prepareOrder

/-- Failure raised by `checkAndAdjustBalance` when the adjusted budget is not
positive (the `throw new Error("Insufficient balance ...")` in the source). -/
inductive BalanceError where
  | insufficientBalance
deriving DecidableEq, Repr

/-- `checkAndAdjustBalance` from `mm-mono-side.ts` (lines 392-447).  The two
balance fetches are passed in as the observed free balances.  For the ask side
the available base balance is valued at the current price; for the bid side
the free quote balance is used directly. -/
def checkAndAdjustBalance (side : Side) (totalQuoteAmount baseFree quoteFree currentPrice : ℚ) :
    Except BalanceError ℚ :=
  let adjustedQuoteAmount :=
    match side with
    | Side.ask =>
        let availableBaseValue := baseFree * currentPrice
        if availableBaseValue < totalQuoteAmount then availableBaseValue
        else totalQuoteAmount
    | Side.bid =>
        if quoteFree < totalQuoteAmount then quoteFree else totalQuoteAmount
  if adjustedQuoteAmount ≤ 0 then Except.error BalanceError.insufficientBalance
  else Except.ok adjustedQuoteAmount

/-- The available balance in quote-currency terms that
`checkAndAdjustBalance` compares the configured budget against. -/
def availableQuoteValue (side : Side) (baseFree quoteFree currentPrice : ℚ) : ℚ :=
  match side with
  | Side.ask => baseFree * currentPrice
  | Side.bid => quoteFree

/-- The planning stage of `placeMonoSideOrders` (`mm-mono-side.ts` lines
520-534): adjust the configured budget against the balance, then hand the
adjusted budget to `calculateOrderDistribution`. -/
def planMonoLadder (side : Side) (totalQuoteAmount baseFree quoteFree currentPrice
    spreadPercent : ℚ) (numberOfOrders : ℕ) : Except BalanceError (List Rung) :=
  (checkAndAdjustBalance side totalQuoteAmount baseFree quoteFree currentPrice).map
    fun adjustedQuoteAmount =>
      calculateOrderDistribution currentPrice side adjustedQuoteAmount spreadPercent
        numberOfOrders

theorem checkAndAdjustBalance_eq_min (side : Side)
    (totalQuoteAmount baseFree quoteFree currentPrice : ℚ) :
    checkAndAdjustBalance side totalQuoteAmount baseFree quoteFree currentPrice =
      (if min totalQuoteAmount (availableQuoteValue side baseFree quoteFree currentPrice) ≤ 0
       then Except.error BalanceError.insufficientBalance
       else Except.ok (min totalQuoteAmount
         (availableQuoteValue side baseFree quoteFree currentPrice))) := by
  have key : ∀ a b : ℚ, (if b < a then b else a) = min a b := by
    intro a b
    rw [min_def]
    split <;> split <;> first | rfl | linarith
  cases side <;> simp only [checkAndAdjustBalance, availableQuoteValue, key]

/-- C10: the mono-side placement routine clamps the configured quote budget to
the available balance (base balance valued at the reference price for the ask
side, free quote balance for the bid side), errors out when the adjusted
budget is zero or negative, and plans the ladder from the adjusted budget, so
the planned ladder's total notional never exceeds the available balance nor
the configured budget. -/
theorem c10_balance_clamp (side : Side)
    (totalQuoteAmount baseFree quoteFree currentPrice spreadPercent : ℚ)
    (numberOfOrders : ℕ) (hn : 1 ≤ numberOfOrders) :
    (∀ adjusted, checkAndAdjustBalance side totalQuoteAmount baseFree quoteFree
        currentPrice = Except.ok adjusted →
      0 < adjusted ∧
      adjusted = min totalQuoteAmount
        (availableQuoteValue side baseFree quoteFree currentPrice)) ∧
    (min totalQuoteAmount (availableQuoteValue side baseFree quoteFree currentPrice) ≤ 0 →
      checkAndAdjustBalance side totalQuoteAmount baseFree quoteFree currentPrice =
        Except.error BalanceError.insufficientBalance) ∧
    (∀ ladder, planMonoLadder side totalQuoteAmount baseFree quoteFree currentPrice
        spreadPercent numberOfOrders = Except.ok ladder →
      (ladder.map Rung.quoteAmount).sum ≤
          availableQuoteValue side baseFree quoteFree currentPrice ∧
      (ladder.map Rung.quoteAmount).sum ≤ totalQuoteAmount) := by
  refine ⟨?_, ?_, ?_⟩
  · intro adjusted hok
    rw [checkAndAdjustBalance_eq_min] at hok
    split at hok
    · exact absurd hok (by simp)
    · rename_i hpos
      obtain rfl := Except.ok.inj hok
      exact ⟨lt_of_not_le hpos, rfl⟩
  · intro hle
    rw [checkAndAdjustBalance_eq_min, if_pos hle]
  · intro ladder hok
    simp only [planMonoLadder, checkAndAdjustBalance_eq_min] at hok
    split at hok
    · exact absurd hok (by simp [Except.map])
    · rename_i hpos
      simp only [Except.map] at hok
      obtain rfl := Except.ok.inj hok
      rw [calculateOrderDistribution_sum _ _ _ _ _ hn]
      exact ⟨min_le_right _ _, min_le_left _ _⟩

/-- Witness for C10 at concrete inputs: ask side, configured budget 10, base
balance 3 valued at price 2 (available 6), so the ladder of 2 rungs sums to 6. -/
theorem c10_balance_clamp_witness :
    ((calculateOrderDistribution 2 Side.ask 6 10 2).map Rung.quoteAmount).sum ≤
        availableQuoteValue Side.ask 3 0 2 ∧
    ((calculateOrderDistribution 2 Side.ask 6 10 2).map Rung.quoteAmount).sum ≤ 10 := by
  have h := (c10_balance_clamp Side.ask 10 3 0 2 10 2 (by norm_num)).2.2
    (calculateOrderDistribution 2 Side.ask 6 10 2)
  refine h ?_
  have : checkAndAdjustBalance Side.ask 10 3 0 2 = Except.ok 6 := by
    norm_num [checkAndAdjustBalance]
  simp [planMonoLadder, this, Except.map]

/-- Outcome of one `trading.cancelOrder` call as classified by the source: the
call resolves, or it rejects with a message matching the source's
already-gone patterns (`ORDER_005` / `InvalidOrder`), or it rejects with any
other error. -/
inductive CancelCallOutcome where
  | ok
  | errOrderGone
  | errOther
deriving DecidableEq, Repr

/-- Per-id status recorded by `cancelMonoSideOrders` fallback path
(`mm-mono-side.ts` lines 676-693). -/
inductive CancelStatus where
  | cancelled
  | already_gone
  | failed
deriving DecidableEq, Repr

/-- The `.then`/`.catch` classification attached to each per-id cancel promise
in `cancelMonoSideOrders`: resolution maps to `cancelled`, an already-gone
error maps to `already_gone`, anything else to `failed` (never rethrown). -/
def classifyCancel : CancelCallOutcome → CancelStatus
  | CancelCallOutcome.ok => CancelStatus.cancelled
  | CancelCallOutcome.errOrderGone => CancelStatus.already_gone
  | CancelCallOutcome.errOther => CancelStatus.failed

/-- The tallies logged by the fallback path of `cancelMonoSideOrders`
(`mm-mono-side.ts` lines 695-717), plus whether the operation rejected. -/
structure CancelSummary where
  cancelledCount : ℕ
  alreadyGoneCount : ℕ
  failedCount : ℕ
  threw : Bool
deriving DecidableEq, Repr

/-- The per-id fallback path of `cancelMonoSideOrders` (`mm-mono-side.ts`
lines 672-717): each cancel promise carries its own catch handler, so
`Promise.all` always resolves and the function returns normally
(`threw := false`); the handler tallies are the three counters. -/
def cancelMonoSideOrdersFallback (outcomes : List CancelCallOutcome) : CancelSummary :=
  let results := outcomes.map classifyCancel
  { cancelledCount := results.countP (· == CancelStatus.cancelled)
    alreadyGoneCount := results.countP (· == CancelStatus.already_gone)
    failedCount := results.countP (· == CancelStatus.failed)
    threw := false }

theorem cancelStatus_partition (results : List CancelStatus) :
    results.countP (· == CancelStatus.cancelled) +
      results.countP (· == CancelStatus.already_gone) +
      results.countP (· == CancelStatus.failed) = results.length := by
  induction results with
  | nil => rfl
  | cons head tail ih => cases head <;> simp [List.countP_cons] <;> omega

/-- C8: per-id cancel failures caused by the order being already gone are
tallied as already-resolved, not as failures, other statuses partition the
rest, and the operation always reports success (it never rejects); in
particular 3 already-gone outcomes among 5 give a successful summary counting
those 3 as already resolved. -/
theorem c8_cancel_already_gone (outcomes : List CancelCallOutcome) :
    (cancelMonoSideOrdersFallback outcomes).threw = false ∧
    (cancelMonoSideOrdersFallback outcomes).alreadyGoneCount =
      outcomes.countP (· == CancelCallOutcome.errOrderGone) ∧
    (cancelMonoSideOrdersFallback outcomes).failedCount =
      outcomes.countP (· == CancelCallOutcome.errOther) ∧
    (cancelMonoSideOrdersFallback outcomes).cancelledCount +
        (cancelMonoSideOrdersFallback outcomes).alreadyGoneCount +
        (cancelMonoSideOrdersFallback outcomes).failedCount = outcomes.length ∧
    cancelMonoSideOrdersFallback
        [CancelCallOutcome.ok, CancelCallOutcome.errOrderGone, CancelCallOutcome.ok,
         CancelCallOutcome.errOrderGone, CancelCallOutcome.errOrderGone] =
      { cancelledCount := 2, alreadyGoneCount := 3, failedCount := 0, threw := false } := by
  have hgone : (fun s => s == CancelStatus.already_gone) ∘ classifyCancel =
      (fun o => o == CancelCallOutcome.errOrderGone) := by
    funext o
    cases o <;> rfl
  have hfailed : (fun s => s == CancelStatus.failed) ∘ classifyCancel =
      (fun o => o == CancelCallOutcome.errOther) := by
    funext o
    cases o <;> rfl
  refine ⟨rfl, ?_, ?_, ?_, by decide⟩
  · simp only [cancelMonoSideOrdersFallback, List.countP_map, hgone]
  · simp only [cancelMonoSideOrdersFallback, List.countP_map, hfailed]
  · simpa only [cancelMonoSideOrdersFallback, List.length_map] using
      cancelStatus_partition (outcomes.map classifyCancel)

/-- Result of one `trading.createLimitOrder` attempt: the exchange accepts the
order and assigns an id, or rejects with a rate-limit error (message matching
`429` / `RateLimitExceeded`), or rejects with any other error. -/
inductive PlaceOutcome where
  | placed (id : String)
  | rateLimited
  | failedOther
deriving DecidableEq, Repr

/-- A placed order as recorded by both bots (`OrderInfo` in `mm-both-side.ts`,
`MonoSideOrder` in `mm-mono-side.ts`). -/
structure OrderInfo where
  id : String
  side : OrderSide
  price : ℚ
  amount : ℚ
  quoteValue : ℚ
deriving DecidableEq, Repr

/-- Exchange interactions issued while placing one ladder: a limit-order
request, or a `setTimeout` pause of the given milliseconds. -/
inductive QuoteAction where
  | createLimitOrder (side : OrderSide) (amount price : ℚ)
  | sleep (ms : ℕ)
deriving DecidableEq, Repr

/-- One iteration of the placement loop in `placeOrdersOneSide`
(`mm-both-side.ts` lines 185-258), for the indexed rung `x` out of `n`:
normalize the rung, skip it when the rounded amount is below the minimum,
otherwise attempt the order; a success records the placed order and (when not
the last iteration) a 50 ms pause, a rate-limit error records a 2000 ms pause
and the loop continues, any other error is skipped. -/
def bothRungStep (outcomes : ℕ → PlaceOutcome) (orderSide : OrderSide)
    (amountTickSize priceTickSize minPrice minAmount : ℚ) (n : ℕ) (x : ℕ × Rung) :
    List OrderInfo × List QuoteAction :=
  let rawBaseAmount := x.2.quoteAmount / x.2.price
  let price := max (((round (x.2.price / priceTickSize) : ℤ) : ℚ) * priceTickSize) minPrice
  let baseAmount := ((round (rawBaseAmount / amountTickSize) : ℤ) : ℚ) * amountTickSize
  if baseAmount < minAmount then ([], [])
  else
    match outcomes x.1 with
    | PlaceOutcome.placed oid =>
        ([{ id := oid, side := orderSide, price := price, amount := baseAmount,
            quoteValue := baseAmount * price }],
         QuoteAction.createLimitOrder orderSide baseAmount price ::
           (if x.1 < n - 1 then [QuoteAction.sleep 50] else []))
    | PlaceOutcome.rateLimited =>
        ([], [QuoteAction.createLimitOrder orderSide baseAmount price,
              QuoteAction.sleep 2000])
    | PlaceOutcome.failedOther =>
        ([], [QuoteAction.createLimitOrder orderSide baseAmount price])

/-- `placeOrdersOneSide` from `mm-both-side.ts` (lines 142-265), applied to an
already-computed order distribution.  The sequential `for` loop appends each
iteration's placed orders and exchange interactions in index order, which is
the concatenation of the per-iteration blocks. -/
def placeOrdersOneSide (outcomes : ℕ → PlaceOutcome) (side : Side)
    (amountTickSize priceTickSize minPrice minAmount : ℚ)
    (orderDistribution : List Rung) : List OrderInfo × List QuoteAction :=
  let results := orderDistribution.enum.map
    (bothRungStep outcomes (ourOrderSide side) amountTickSize priceTickSize minPrice
      minAmount orderDistribution.length)
  (results.flatMap Prod.fst, results.flatMap Prod.snd)

/-- One rung of the mono-side placement (`prepareAndPlaceOrder` plus
`placeOrder`, `mm-mono-side.ts` lines 279-387): a rejected rung contributes
nothing, a prepared rung issues one limit-order request; only a confirmed
placement yields an order record (carrying the rung's quote notional), and any
placement error is caught and dropped. -/
def monoRungStep (outcomes : ℕ → PlaceOutcome) (side : Side)
    (amountTickSize priceTickSize minPrice minCost minAmount : ℚ) (x : ℕ × Rung) :
    Option OrderInfo × List QuoteAction :=
  match prepareOrder side x.2 amountTickSize priceTickSize minPrice minCost
      minAmount with
  | none => (none, [])
  | some p =>
      match outcomes x.1 with
      | PlaceOutcome.placed oid =>
          (some { id := oid, side := p.orderSide, price := p.price,
                  amount := p.baseAmount, quoteValue := x.2.quoteAmount },
           [QuoteAction.createLimitOrder p.orderSide p.baseAmount p.price])
      | _ => (none, [QuoteAction.createLimitOrder p.orderSide p.baseAmount p.price])

/-- The placement stage of `placeMonoSideOrders` (`mm-mono-side.ts` lines
590-625): every rung is prepared and fired via `Promise.all` with no pacing
between requests, and the non-null results are collected in rung order. -/
def placeMonoSideLadder (outcomes : ℕ → PlaceOutcome) (side : Side)
    (amountTickSize priceTickSize minPrice minCost minAmount : ℚ)
    (orderDistribution : List Rung) : List OrderInfo × List QuoteAction :=
  let results := orderDistribution.enum.map
    (monoRungStep outcomes side amountTickSize priceTickSize minPrice minCost
      minAmount)
  (results.filterMap Prod.fst, results.flatMap Prod.snd)

/-- Written from the spec's words for C7 (one indexed rung): the candidate a
rung contributes when it survives normalization and its placement attempt is
confirmed, carrying the exchange-assigned order id. -/
def confirmedBothOf (outcomes : ℕ → PlaceOutcome) (orderSide : OrderSide)
    (amountTickSize priceTickSize minPrice minAmount : ℚ) (x : ℕ × Rung) :
    Option OrderInfo :=
  let price := max (((round (x.2.price / priceTickSize) : ℤ) : ℚ) * priceTickSize) minPrice
  let baseAmount :=
    ((round (x.2.quoteAmount / x.2.price / amountTickSize) : ℤ) : ℚ) * amountTickSize
  if baseAmount < minAmount then none
  else
    match outcomes x.1 with
    | PlaceOutcome.placed oid =>
        some { id := oid, side := orderSide, price := price, amount := baseAmount,
               quoteValue := baseAmount * price }
    | _ => none

/-- Written from the spec's words for C7: "Returns exactly the rungs that were
confirmed placed, each carrying the exchange-assigned order id" — the rungs
surviving normalization whose placement attempt succeeded, in order. -/
def confirmedBothPlacements (outcomes : ℕ → PlaceOutcome) (orderSide : OrderSide)
    (amountTickSize priceTickSize minPrice minAmount : ℚ)
    (orderDistribution : List Rung) : List OrderInfo :=
  orderDistribution.enum.filterMap
    (confirmedBothOf outcomes orderSide amountTickSize priceTickSize minPrice minAmount)

/-- Written from the spec's words for C7, mono variant: the confirmed
placements among the prepared rungs, each with its exchange-assigned id. -/
def confirmedMonoPlacements (outcomes : ℕ → PlaceOutcome) (side : Side)
    (amountTickSize priceTickSize minPrice minCost minAmount : ℚ)
    (orderDistribution : List Rung) : List OrderInfo :=
  orderDistribution.enum.filterMap
    (Prod.fst ∘ monoRungStep outcomes side amountTickSize priceTickSize minPrice
      minCost minAmount)

theorem flatMap_toList_eq_filterMap {α β : Type} (g : α → Option β) (l : List α) :
    (l.flatMap fun x => (g x).toList) = l.filterMap g := by
  induction l with
  | nil => rfl
  | cons head tail ih =>
      cases hg : g head <;> simp [List.flatMap_cons, List.filterMap_cons, hg, ih]

theorem bothRungStep_fst_eq (outcomes : ℕ → PlaceOutcome) (orderSide : OrderSide)
    (amountTickSize priceTickSize minPrice minAmount : ℚ) (n : ℕ) (x : ℕ × Rung) :
    (bothRungStep outcomes orderSide amountTickSize priceTickSize minPrice minAmount
        n x).1 =
      (confirmedBothOf outcomes orderSide amountTickSize priceTickSize minPrice
        minAmount x).toList := by
  simp only [bothRungStep, confirmedBothOf]
  split
  · rfl
  · cases outcomes x.1 <;> rfl

/-- A rung survives normalization when its tick-rounded base amount is not
below the exchange minimum amount. -/
def rungSurvives (amountTickSize minAmount : ℚ) (rung : Rung) : Prop :=
  ¬ (((round (rung.quoteAmount / rung.price / amountTickSize) : ℤ) : ℚ) *
      amountTickSize < minAmount)

theorem placeOrdersOneSide_fst (outcomes : ℕ → PlaceOutcome) (side : Side)
    (amountTickSize priceTickSize minPrice minAmount : ℚ)
    (orderDistribution : List Rung) :
    (placeOrdersOneSide outcomes side amountTickSize priceTickSize minPrice minAmount
        orderDistribution).1 =
      confirmedBothPlacements outcomes (ourOrderSide side) amountTickSize priceTickSize
        minPrice minAmount orderDistribution := by
  simp only [placeOrdersOneSide, confirmedBothPlacements, List.flatMap_map]
  rw [show (fun a => (bothRungStep outcomes (ourOrderSide side) amountTickSize
      priceTickSize minPrice minAmount orderDistribution.length a).1) =
      (fun x => (confirmedBothOf outcomes (ourOrderSide side) amountTickSize
        priceTickSize minPrice minAmount x).toList) from
    funext fun x => bothRungStep_fst_eq outcomes (ourOrderSide side) amountTickSize
      priceTickSize minPrice minAmount orderDistribution.length x]
  exact flatMap_toList_eq_filterMap _ _

theorem bothRungStep_sleep2000_iff (outcomes : ℕ → PlaceOutcome) (orderSide : OrderSide)
    (amountTickSize priceTickSize minPrice minAmount : ℚ) (n : ℕ) (x : ℕ × Rung) :
    QuoteAction.sleep 2000 ∈ (bothRungStep outcomes orderSide amountTickSize
        priceTickSize minPrice minAmount n x).2 ↔
      rungSurvives amountTickSize minAmount x.2 ∧
        outcomes x.1 = PlaceOutcome.rateLimited := by
  simp only [bothRungStep, rungSurvives]
  split
  · rename_i hba
    simp [hba]
  · rename_i hba
    cases houtcome : outcomes x.1 <;> simp [hba, houtcome]

theorem bothRungStep_sleep50_iff (outcomes : ℕ → PlaceOutcome) (orderSide : OrderSide)
    (amountTickSize priceTickSize minPrice minAmount : ℚ) (n : ℕ) (x : ℕ × Rung) :
    QuoteAction.sleep 50 ∈ (bothRungStep outcomes orderSide amountTickSize
        priceTickSize minPrice minAmount n x).2 ↔
      rungSurvives amountTickSize minAmount x.2 ∧
        (∃ oid, outcomes x.1 = PlaceOutcome.placed oid) ∧ x.1 < n - 1 := by
  simp only [bothRungStep, rungSurvives]
  split
  · rename_i hba
    simp [hba]
  · rename_i hba
    cases houtcome : outcomes x.1 <;> simp [hba, houtcome]

theorem monoRungStep_snd_no_sleep (outcomes : ℕ → PlaceOutcome) (side : Side)
    (amountTickSize priceTickSize minPrice minCost minAmount : ℚ) (x : ℕ × Rung)
    (ms : ℕ) :
    QuoteAction.sleep ms ∉ (monoRungStep outcomes side amountTickSize priceTickSize
      minPrice minCost minAmount x).2 := by
  unfold monoRungStep
  generalize prepareOrder side x.2 amountTickSize priceTickSize minPrice minCost
    minAmount = prepared
  cases prepared
  · simp
  · cases outcomes x.1 <;> simp

theorem mem_placeOrdersOneSide_snd_iff (outcomes : ℕ → PlaceOutcome) (side : Side)
    (amountTickSize priceTickSize minPrice minAmount : ℚ)
    (orderDistribution : List Rung) (a : QuoteAction) :
    a ∈ (placeOrdersOneSide outcomes side amountTickSize priceTickSize minPrice
        minAmount orderDistribution).2 ↔
      ∃ x ∈ orderDistribution.enum,
        a ∈ (bothRungStep outcomes (ourOrderSide side) amountTickSize priceTickSize
          minPrice minAmount orderDistribution.length x).2 := by
  simp only [placeOrdersOneSide, List.flatMap_map, List.mem_flatMap, Function.comp]

theorem mem_placeMonoSideLadder_snd_iff (outcomes : ℕ → PlaceOutcome) (side : Side)
    (amountTickSize priceTickSize minPrice minCost minAmount : ℚ)
    (orderDistribution : List Rung) (a : QuoteAction) :
    a ∈ (placeMonoSideLadder outcomes side amountTickSize priceTickSize minPrice
        minCost minAmount orderDistribution).2 ↔
      ∃ x ∈ orderDistribution.enum,
        a ∈ (monoRungStep outcomes side amountTickSize priceTickSize minPrice minCost
          minAmount x).2 := by
  simp only [placeMonoSideLadder, List.flatMap_map, List.mem_flatMap, Function.comp]

theorem placeMonoSideLadder_fst (outcomes : ℕ → PlaceOutcome) (side : Side)
    (amountTickSize priceTickSize minPrice minCost minAmount : ℚ)
    (orderDistribution : List Rung) :
    (placeMonoSideLadder outcomes side amountTickSize priceTickSize minPrice minCost
        minAmount orderDistribution).1 =
      confirmedMonoPlacements outcomes side amountTickSize priceTickSize minPrice
        minCost minAmount orderDistribution := by
  simp only [placeMonoSideLadder, confirmedMonoPlacements, List.filterMap_map]

theorem prepareOrder_unit_rung_eval :
    prepareOrder Side.ask { price := 1, quoteAmount := 1 } 1 1 0 0 0 =
      some { price := 1, baseAmount := 1, actualCost := 1,
             orderSide := OrderSide.sell } := by
  norm_num [prepareOrder]
  decide

theorem prepareOrder_two_rung_eval :
    prepareOrder Side.ask { price := 2, quoteAmount := 1 } 1 1 0 0 0 =
      some { price := 2, baseAmount := 1, actualCost := 2,
             orderSide := OrderSide.sell } := by
  norm_num [prepareOrder, round_eq]
  decide

theorem monoRungStep_unit_rung_eval :
    monoRungStep (fun _ => PlaceOutcome.placed "x") Side.ask 1 1 0 0 0
      (0, { price := 1, quoteAmount := 1 }) =
      (some { id := "x", side := OrderSide.sell, price := 1, amount := 1, quoteValue := 1 },
       [QuoteAction.createLimitOrder OrderSide.sell 1 1]) := by
  unfold monoRungStep
  rw [show ((0 : ℕ), ({ price := 1, quoteAmount := 1 } : Rung)).2 =
    { price := 1, quoteAmount := 1 } from rfl, prepareOrder_unit_rung_eval]

theorem monoRungStep_two_rung_eval :
    monoRungStep (fun _ => PlaceOutcome.placed "x") Side.ask 1 1 0 0 0
      (1, { price := 2, quoteAmount := 1 }) =
      (some { id := "x", side := OrderSide.sell, price := 2, amount := 1, quoteValue := 1 },
       [QuoteAction.createLimitOrder OrderSide.sell 1 2]) := by
  unfold monoRungStep
  rw [show ((1 : ℕ), ({ price := 2, quoteAmount := 1 } : Rung)).2 =
    { price := 2, quoteAmount := 1 } from rfl, prepareOrder_two_rung_eval]

theorem placeMonoSideLadder_parallel_eval :
    placeMonoSideLadder (fun _ => PlaceOutcome.placed "x") Side.ask 1 1 0 0 0
      [{ price := 1, quoteAmount := 1 }, { price := 2, quoteAmount := 1 }] =
      ([{ id := "x", side := OrderSide.sell, price := 1, amount := 1, quoteValue := 1 },
        { id := "x", side := OrderSide.sell, price := 2, amount := 1, quoteValue := 1 }],
       [QuoteAction.createLimitOrder OrderSide.sell 1 1,
        QuoteAction.createLimitOrder OrderSide.sell 1 2]) := by
  simp only [placeMonoSideLadder, List.enum, List.enumFrom, List.map_cons, List.map_nil,
    zero_add, monoRungStep_unit_rung_eval, monoRungStep_two_rung_eval]
  rfl

/-- C7 fails as stated: the claim requires a fixed delay between consecutive
placements in both bot variants, but the mono-side bot fires every rung via
`Promise.all`; a concrete run placing 2 rungs issues two consecutive
limit-order requests with no pause action of any duration between them. -/
theorem c7_counterexample :
    ¬ (∀ (outcomes : ℕ → PlaceOutcome) (side : Side)
        (amountTickSize priceTickSize minPrice minCost minAmount : ℚ)
        (orderDistribution : List Rung),
        2 ≤ (placeMonoSideLadder outcomes side amountTickSize priceTickSize minPrice
          minCost minAmount orderDistribution).1.length →
        ∃ ms, QuoteAction.sleep ms ∈ (placeMonoSideLadder outcomes side amountTickSize
          priceTickSize minPrice minCost minAmount orderDistribution).2) := by
  intro h
  obtain ⟨ms, hms⟩ := h (fun _ => PlaceOutcome.placed "x") Side.ask 1 1 0 0 0
    [{ price := 1, quoteAmount := 1 }, { price := 2, quoteAmount := 1 }]
    (by rw [placeMonoSideLadder_parallel_eval]; decide)
  rw [placeMonoSideLadder_parallel_eval] at hms
  simp at hms

/-- C7 amended: the both-side quoter places surviving rungs sequentially and
returns exactly the confirmed placements with their exchange-assigned ids; its
trace contains the 2000 ms backoff pause exactly when some surviving rung hit
a rate-limit error (after which the loop continues with the next rung), and
the 50 ms pacing pause exactly when some surviving non-final rung was placed.
The mono-side variant also returns exactly the confirmed placements with their
ids and skips per-rung failures, but fires all placements concurrently and
issues no pause of any duration. -/
theorem c7_side_quoter_amended (outcomes : ℕ → PlaceOutcome) (side : Side)
    (amountTickSize priceTickSize minPrice minCost minAmount : ℚ)
    (orderDistribution : List Rung) :
    (placeOrdersOneSide outcomes side amountTickSize priceTickSize minPrice minAmount
        orderDistribution).1 =
      confirmedBothPlacements outcomes (ourOrderSide side) amountTickSize priceTickSize
        minPrice minAmount orderDistribution ∧
    (QuoteAction.sleep 2000 ∈ (placeOrdersOneSide outcomes side amountTickSize
        priceTickSize minPrice minAmount orderDistribution).2 ↔
      ∃ x ∈ orderDistribution.enum, rungSurvives amountTickSize minAmount x.2 ∧
        outcomes x.1 = PlaceOutcome.rateLimited) ∧
    (QuoteAction.sleep 50 ∈ (placeOrdersOneSide outcomes side amountTickSize
        priceTickSize minPrice minAmount orderDistribution).2 ↔
      ∃ x ∈ orderDistribution.enum, rungSurvives amountTickSize minAmount x.2 ∧
        (∃ oid, outcomes x.1 = PlaceOutcome.placed oid) ∧
        x.1 < orderDistribution.length - 1) ∧
    (placeMonoSideLadder outcomes side amountTickSize priceTickSize minPrice minCost
        minAmount orderDistribution).1 =
      confirmedMonoPlacements outcomes side amountTickSize priceTickSize minPrice
        minCost minAmount orderDistribution ∧
    (∀ ms, QuoteAction.sleep ms ∉ (placeMonoSideLadder outcomes side amountTickSize
      priceTickSize minPrice minCost minAmount orderDistribution).2) := by
  refine ⟨placeOrdersOneSide_fst _ _ _ _ _ _ _, ?_, ?_,
    placeMonoSideLadder_fst _ _ _ _ _ _ _ _, ?_⟩
  · simp only [mem_placeOrdersOneSide_snd_iff, bothRungStep_sleep2000_iff]
  · simp only [mem_placeOrdersOneSide_snd_iff, bothRungStep_sleep50_iff]
  · intro ms hmem
    rw [mem_placeMonoSideLadder_snd_iff] at hmem
    obtain ⟨x, _, hx⟩ := hmem
    exact monoRungStep_snd_no_sleep outcomes side amountTickSize priceTickSize
      minPrice minCost minAmount x ms hx

/-- An open order as returned by `trading.fetchOpenOrders`. -/
structure OpenOrder where
  id : String
  side : OrderSide
  price : ℚ
deriving DecidableEq, Repr

/-- Exchange interactions one monitor tick performs: an open-order fetch, a
ticker fetch, a cancel request for a list of ids, a symbol-wide cancel-all, a
`setTimeout` pause, and a ladder placement (one side / both sides).  Ladder
placement internals are modelled separately (`placeMonoSideLadder`,
`placeOrdersOneSide`); at tick level a placement is one action whose returned
ids are supplied by the tick observation. -/
inductive TickAction where
  | fetchOpen
  | fetchTicker
  | cancelReq (ids : List String)
  | cancelAllSym
  | waitMs (ms : ℕ)
  | placeLadder
  | placeBoth
deriving DecidableEq, Repr

/-- The slice of `MonoSideMMConfig` the monitor loop consults;
`driftThresholdPercent` holds the resolved
`config.driftThresholdPercent || config.spreadPercent`. -/
structure MonoCfg where
  side : Side
  numberOfOrders : ℕ
  driftThresholdPercent : ℚ
deriving DecidableEq, Repr

/-- Results of the asynchronous calls one mono-side tick can make, in call
order: the first open-order fetch, the fetch inside `checkFilledOrders`, the
post-cancel re-verification fetch, the ticker-based reference price, the ids
returned by a `placeMonoSideOrders` attempt (nothing when it throws), and
whether a cancel call throws. -/
structure MonoTickObs where
  snap1 : List OpenOrder
  snap2 : List OpenOrder
  recheck : List OpenOrder
  referencePrice : ℚ
  placeResult : Option (List String)
  cancelThrows : Bool
deriving DecidableEq, Repr

/-- `filled = trackedIds − openIds`: the tracked ids absent from a snapshot
(`checkFilledOrders` in `mm-mono-side.ts`, `checkForFills` in
`mm-both-side.ts`). -/
def fillDiff (tracked : List String) (snapshot : List OpenOrder) : List String :=
  tracked.filter (fun oid => !((snapshot.map OpenOrder.id).contains oid))

/-- The `open` orders of `checkFilledOrders` restricted to the bot's side:
tracked ids looked up in the snapshot, then filtered to the configured side
(`ourSideOpen` in `handleOrderFills`). -/
def monoOurSideOpen (cfg : MonoCfg) (activeOrderIds : List String)
    (snapshot : List OpenOrder) : List OpenOrder :=
  (activeOrderIds.filterMap (fun oid => snapshot.find? (fun o => o.id == oid))).filter
    (fun o => o.side == ourOrderSide cfg.side)

/-- The snapshot orders on the bot's side that are tracked (`ourOrders` in the
no-fill section of `startMonitoring`). -/
def monoOurOrders (cfg : MonoCfg) (activeOrderIds : List String)
    (snap1 : List OpenOrder) : List OpenOrder :=
  (snap1.filter (fun o => o.side == ourOrderSide cfg.side)).filter
    (fun o => activeOrderIds.contains o.id)

/-- The refresh decision of the no-fill section of `startMonitoring`
(`mm-mono-side.ts` lines 1087-1113): the closest tracked order (highest bid /
lowest ask) is compared against a freshly resolved reference price, and a
refresh is due when orders are missing or the absolute percentage distance
exceeds the drift threshold.  `Math.max`/`Math.min` of an empty list gives an
infinite distance in JavaScript, modelled as an over-threshold result. -/
def monoNeedsRefresh (cfg : MonoCfg) (activeOrderIds : List String)
    (snap1 : List OpenOrder) (referencePrice : ℚ) : Bool :=
  let ourOrders := monoOurOrders cfg activeOrderIds snap1
  let closestOrderPrice? :=
    match cfg.side with
    | Side.bid => (ourOrders.map OpenOrder.price).max?
    | Side.ask => (ourOrders.map OpenOrder.price).min?
  let drifted : Bool :=
    match closestOrderPrice? with
    | none => true
    | some closest =>
        decide (cfg.driftThresholdPercent <
          |((closest - referencePrice) / referencePrice) * 100|)
  decide (ourOrders.length < cfg.numberOfOrders) || drifted

/-- One tick of the mono-side monitor loop (`startMonitoring`,
`mm-mono-side.ts` lines 981-1215), returning the new `activeOrderIds` and the
trace of exchange interactions.  The JavaScript `Math.max`/`Math.min` of an
empty price list yields an infinite drift, modelled by treating a missing
closest price as over-threshold. -/
def monoTick (cfg : MonoCfg) (activeOrderIds : List String) (obs : MonoTickObs) :
    List String × List TickAction :=
  let ourSide := ourOrderSide cfg.side
  let ourSideOrders := obs.snap1.filter (fun o => o.side == ourSide)
  if ourSideOrders.length = 0 then
    match obs.placeResult with
    | some ids => (ids, [TickAction.fetchOpen, TickAction.placeLadder])
    | none => (activeOrderIds, [TickAction.fetchOpen, TickAction.placeLadder])
  else
    let filled := fillDiff activeOrderIds obs.snap2
    if 0 < filled.length then
      let ourSideOpen := monoOurSideOpen cfg activeOrderIds obs.snap2
      if ourSideOpen.length < activeOrderIds.length then
        let cancelActs : List TickAction :=
          if 0 < ourSideOpen.length then
            [TickAction.cancelReq (ourSideOpen.map OpenOrder.id)]
          else []
        let ourSideCount := (obs.recheck.filter (fun o => o.side == ourSide)).length
        if ourSideCount = 0 then
          match obs.placeResult with
          | some ids =>
              (ids, TickAction.fetchOpen :: TickAction.fetchOpen :: cancelActs ++
                [TickAction.fetchOpen, TickAction.placeLadder])
          | none =>
              ([], TickAction.fetchOpen :: TickAction.fetchOpen :: cancelActs ++
                [TickAction.fetchOpen, TickAction.placeLadder])
        else
          ([], TickAction.fetchOpen :: TickAction.fetchOpen :: cancelActs ++
            [TickAction.fetchOpen])
      else ([], [TickAction.fetchOpen, TickAction.fetchOpen])
    else
      let ourOrders := monoOurOrders cfg activeOrderIds obs.snap1
      if ourOrders.length = 0 ∧ 0 < activeOrderIds.length then
        ([], [TickAction.fetchOpen, TickAction.fetchOpen])
      else
        if monoNeedsRefresh cfg activeOrderIds obs.snap1 obs.referencePrice then
          let baseTrace := [TickAction.fetchOpen, TickAction.fetchOpen,
            TickAction.fetchTicker, TickAction.cancelReq (ourOrders.map OpenOrder.id)]
          if obs.cancelThrows then ([], baseTrace)
          else
            let recheckOurSide := obs.recheck.filter (fun o => o.side == ourSide)
            if recheckOurSide.length = 0 then
              match obs.placeResult with
              | some ids =>
                  (ids, baseTrace ++ [TickAction.fetchOpen, TickAction.placeLadder])
              | none =>
                  ([], baseTrace ++ [TickAction.fetchOpen, TickAction.placeLadder])
            else ([], baseTrace ++ [TickAction.fetchOpen])
        else
          (activeOrderIds,
           [TickAction.fetchOpen, TickAction.fetchOpen, TickAction.fetchTicker])

/-- The mutable tracking of `startBot` in `mm-both-side.ts`: active ids and
the expected count recorded at the last placement, per side. -/
structure BothState where
  activeBidOrderIds : List String
  activeAskOrderIds : List String
  expectedBidCount : ℕ
  expectedAskCount : ℕ
deriving DecidableEq, Repr

/-- Results of the asynchronous calls one both-side tick can make: the
`checkForFills` fetch, the post-cancel re-verification fetch, the "any side
empty" fetch, the bid and ask ids returned by a `placeBothSides` attempt
(nothing when it throws before placing), and whether the direct
`cancelAllOrders` call in the fill path throws. -/
structure BothTickObs where
  snap1 : List OpenOrder
  recheck : List OpenOrder
  snap2 : List OpenOrder
  placeResult : Option (List String × List String)
  cancelAllThrows : Bool
deriving DecidableEq, Repr

/-- The shared cancel-then-replace block of the "missing orders" and "count
mismatch" paths (`mm-both-side.ts` lines 536-580): best-effort cancel-all
(skipped by the helper when no ids are tracked), a 500 ms pause, then an
immediate `placeBothSides` with no re-verification fetch. -/
def bothRefreshNoVerify (s : BothState) (obs : BothTickObs) :
    BothState × List TickAction :=
  let cancelActs : List TickAction :=
    if 0 < (s.activeBidOrderIds ++ s.activeAskOrderIds).length then
      [TickAction.cancelAllSym]
    else []
  match obs.placeResult with
  | some (bidIds, askIds) =>
      ({ activeBidOrderIds := bidIds, activeAskOrderIds := askIds,
         expectedBidCount := bidIds.length, expectedAskCount := askIds.length },
       TickAction.fetchOpen :: TickAction.fetchOpen :: cancelActs ++
         [TickAction.waitMs 500, TickAction.placeBoth])
  | none =>
      (s, TickAction.fetchOpen :: TickAction.fetchOpen :: cancelActs ++
        [TickAction.waitMs 500, TickAction.placeBoth])

/-- One tick of the two-sided monitor loop (`startBot`, `mm-both-side.ts`
lines 451-599), returning the new tracking state and the trace of exchange
interactions. -/
def bothTick (s : BothState) (obs : BothTickObs) : BothState × List TickAction :=
  let bidFilled := fillDiff s.activeBidOrderIds obs.snap1
  let askFilled := fillDiff s.activeAskOrderIds obs.snap1
  if 0 < bidFilled.length ∨ 0 < askFilled.length then
    if obs.cancelAllThrows then (s, [TickAction.fetchOpen, TickAction.cancelAllSym])
    else if obs.recheck.length = 0 then
      match obs.placeResult with
      | some (bidIds, askIds) =>
          ({ activeBidOrderIds := bidIds, activeAskOrderIds := askIds,
             expectedBidCount := bidIds.length, expectedAskCount := askIds.length },
           [TickAction.fetchOpen, TickAction.cancelAllSym, TickAction.waitMs 1500,
            TickAction.fetchOpen, TickAction.placeBoth])
      | none =>
          (s, [TickAction.fetchOpen, TickAction.cancelAllSym, TickAction.waitMs 1500,
            TickAction.fetchOpen, TickAction.placeBoth])
    else
      ({ s with
          activeBidOrderIds :=
            (obs.recheck.filter (fun o => o.side == OrderSide.buy)).map OpenOrder.id,
          activeAskOrderIds :=
            (obs.recheck.filter (fun o => o.side == OrderSide.sell)).map OpenOrder.id },
       [TickAction.fetchOpen, TickAction.cancelAllSym, TickAction.waitMs 1500,
        TickAction.fetchOpen])
  else
    let ourBidOrders := obs.snap2.filter
      (fun o => o.side == OrderSide.buy && s.activeBidOrderIds.contains o.id)
    let ourAskOrders := obs.snap2.filter
      (fun o => o.side == OrderSide.sell && s.activeAskOrderIds.contains o.id)
    if ourBidOrders.length = 0 ∨ ourAskOrders.length = 0 then
      bothRefreshNoVerify s obs
    else if ourBidOrders.length < s.expectedBidCount ∨
        ourAskOrders.length < s.expectedAskCount then
      bothRefreshNoVerify s obs
    else (s, [TickAction.fetchOpen, TickAction.fetchOpen])

/-- The both-side timer callback behind its `isProcessing` reentrancy flag
(`mm-both-side.ts` lines 448-461): a tick firing while the previous one is
still running returns immediately, mutating nothing and calling nothing. -/
def bothTickGuarded (isProcessing : Bool) (s : BothState) (obs : BothTickObs) :
    BothState × List TickAction :=
  if isProcessing then (s, []) else bothTick s obs

/-- The mono-side timer callback (`mm-mono-side.ts` lines 981-1215): the
callback consults no reentrancy flag, so the busy bit is ignored and the tick
body always runs. -/
def monoTickGuarded (isProcessing : Bool) (cfg : MonoCfg)
    (activeOrderIds : List String) (obs : MonoTickObs) :
    List String × List TickAction :=
  monoTick cfg activeOrderIds obs

theorem length_filterMap_add_length_filter_not {α β : Type} (l : List α)
    (f : α → Option β) (q : α → Bool) (hq : ∀ a, q a = !(f a).isSome) :
    (l.filterMap f).length + (l.filter q).length = l.length := by
  induction l with
  | nil => rfl
  | cons a t ih =>
      rw [List.filterMap_cons, List.filter_cons]
      cases hfa : f a with
      | none =>
          have hqa : q a = true := by rw [hq, hfa]; rfl
          simp [hqa]
          omega
      | some y =>
          have hqa : q a = false := by rw [hq, hfa]; rfl
          simp [hqa]
          omega

theorem contains_eq_find_isSome (snap : List OpenOrder) (a : String) :
    ((snap.map OpenOrder.id).contains a) = (snap.find? (fun o => o.id == a)).isSome := by
  rw [Bool.eq_iff_iff]
  simp [List.find?_isSome, List.mem_map]

/-- When the fill diff against a snapshot is non-empty, the tracked side
orders still open in that snapshot number strictly fewer than the tracked
ids, so `handleOrderFills` always enters its cancel-and-recheck branch. -/
theorem monoOurSideOpen_length_lt (cfg : MonoCfg) (activeOrderIds : List String)
    (snap : List OpenOrder) (h : fillDiff activeOrderIds snap ≠ []) :
    (monoOurSideOpen cfg activeOrderIds snap).length < activeOrderIds.length := by
  have hpart := length_filterMap_add_length_filter_not activeOrderIds
    (fun oid => snap.find? (fun o => o.id == oid))
    (fun oid => !((snap.map OpenOrder.id).contains oid))
    (fun a => by
      show (!((snap.map OpenOrder.id).contains a)) =
        !((snap.find? (fun o => o.id == a)).isSome)
      rw [contains_eq_find_isSome])
  have hfl : 0 < (fillDiff activeOrderIds snap).length :=
    List.length_pos.mpr h
  have hle : (monoOurSideOpen cfg activeOrderIds snap).length ≤
      (activeOrderIds.filterMap (fun oid => snap.find? (fun o => o.id == oid))).length :=
    List.length_filter_le _ _
  rw [show fillDiff activeOrderIds snap =
    activeOrderIds.filter (fun oid => !((snap.map OpenOrder.id).contains oid)) from rfl]
    at hfl
  omega

theorem monoTick_empty_path (cfg : MonoCfg) (activeOrderIds : List String)
    (obs : MonoTickObs)
    (h0 : (obs.snap1.filter (fun o => o.side == ourOrderSide cfg.side)).length = 0) :
    (monoTick cfg activeOrderIds obs).2 =
      [TickAction.fetchOpen, TickAction.placeLadder] := by
  simp only [monoTick]
  rw [if_pos h0]
  cases obs.placeResult <;> rfl

theorem monoTick_fill_path (cfg : MonoCfg) (activeOrderIds : List String)
    (obs : MonoTickObs)
    (h1 : (obs.snap1.filter (fun o => o.side == ourOrderSide cfg.side)).length ≠ 0)
    (h2 : fillDiff activeOrderIds obs.snap2 ≠ []) :
    (monoTick cfg activeOrderIds obs).2.count TickAction.fetchOpen = 3 ∧
    (TickAction.placeLadder ∈ (monoTick cfg activeOrderIds obs).2 ↔
      (obs.recheck.filter (fun o => o.side == ourOrderSide cfg.side)).length = 0) ∧
    (monoOurSideOpen cfg activeOrderIds obs.snap2 ≠ [] →
      TickAction.cancelReq
          ((monoOurSideOpen cfg activeOrderIds obs.snap2).map OpenOrder.id) ∈
        (monoTick cfg activeOrderIds obs).2) := by
  have hguard := monoOurSideOpen_length_lt cfg activeOrderIds obs.snap2 h2
  have hfl : 0 < (fillDiff activeOrderIds obs.snap2).length :=
    List.length_pos.mpr h2
  simp only [monoTick]
  rw [if_neg h1, if_pos hfl, if_pos hguard]
  by_cases hopen : 0 < (monoOurSideOpen cfg activeOrderIds obs.snap2).length
  · rw [if_pos hopen]
    by_cases hcount :
        (obs.recheck.filter (fun o => o.side == ourOrderSide cfg.side)).length = 0
    · rw [if_pos hcount]
      cases obs.placeResult <;>
        refine ⟨?_, ?_, fun _ => ?_⟩ <;>
          simp [hcount, List.count_cons, List.count_append]
    · rw [if_neg hcount]
      refine ⟨?_, ?_, fun _ => ?_⟩ <;>
        simp [hcount, List.count_cons, List.count_append]
  · have hempty : monoOurSideOpen cfg activeOrderIds obs.snap2 = [] :=
      List.length_eq_zero.mp (by omega)
    rw [if_neg hopen]
    by_cases hcount :
        (obs.recheck.filter (fun o => o.side == ourOrderSide cfg.side)).length = 0
    · rw [if_pos hcount]
      cases obs.placeResult <;>
        refine ⟨?_, ?_, fun hne => absurd hempty hne⟩ <;>
          simp [hcount, List.count_cons, List.count_append]
    · rw [if_neg hcount]
      refine ⟨?_, ?_, fun hne => absurd hempty hne⟩ <;>
        simp [hcount, List.count_cons, List.count_append]

theorem bothTick_fill_path (s : BothState) (obs : BothTickObs)
    (h : 0 < (fillDiff s.activeBidOrderIds obs.snap1).length ∨
      0 < (fillDiff s.activeAskOrderIds obs.snap1).length) :
    TickAction.cancelAllSym ∈ (bothTick s obs).2 ∧
    (TickAction.placeBoth ∈ (bothTick s obs).2 ↔
      (obs.cancelAllThrows = false ∧ obs.recheck = [])) := by
  simp only [bothTick]
  rw [if_pos h]
  cases hthrow : obs.cancelAllThrows
  · by_cases hre : obs.recheck.length = 0
    · have hre' : obs.recheck = [] := List.length_eq_zero.mp hre
      rw [if_neg (by simp), if_pos hre]
      rcases obs.placeResult with _ | ⟨bidIds, askIds⟩ <;> simp [hre']
    · have hre' : obs.recheck ≠ [] := fun hx => hre (by simp [hx])
      rw [if_neg (by simp), if_neg hre]
      simp [hre']
  · rw [if_pos rfl]
    simp

/-- C1 fails as stated: in the mono-side loop, when the live snapshot shows no
orders left on the configured side (so the fill diff is the whole tracked
set), the tick places a fresh ladder immediately on the basis of that single
snapshot — it performs no cancel and no second verification fetch, and it
places even though the would-be re-verification snapshot still holds a
resting order on that side. -/
theorem c1_counterexample :
    ¬ (∀ (cfg : MonoCfg) (activeOrderIds : List String) (obs : MonoTickObs),
        fillDiff activeOrderIds obs.snap1 ≠ [] →
        2 ≤ (monoTick cfg activeOrderIds obs).2.count TickAction.fetchOpen ∧
        (TickAction.placeLadder ∈ (monoTick cfg activeOrderIds obs).2 →
          (obs.recheck.filter (fun o => o.side == ourOrderSide cfg.side)).length = 0)) := by
  intro h
  have h2 := h { side := Side.ask, numberOfOrders := 1, driftThresholdPercent := 20 }
    ["a"]
    { snap1 := [], snap2 := [],
      recheck := [{ id := "x", side := OrderSide.sell, price := 1 }],
      referencePrice := 1, placeResult := some ["b"], cancelThrows := false }
    (by decide)
  exact absurd h2.1 (by decide)

/-- C1 amended: when a fill diff is detected through `checkFilledOrders` (the
snapshot still shows orders on the configured side), the mono-side tick makes
exactly three open-order fetches (snapshot, diff fetch, re-verification),
cancels the remaining tracked side orders whenever any are still open, and
attempts a replacement ladder exactly when the re-verification fetch shows
zero resting orders on that side; the both-side tick on any fill issues a
cancel-all and attempts a replacement exactly when the cancel survived and
the re-verification snapshot is empty.  However, when the first snapshot
already shows zero orders on the configured side, the mono-side tick places a
fresh ladder immediately after that single fetch, with no cancel and no
second verification fetch. -/
theorem c1_fill_reconciliation_amended (cfg : MonoCfg) (activeOrderIds : List String)
    (obs : MonoTickObs) (s : BothState) (bobs : BothTickObs) :
    ((obs.snap1.filter (fun o => o.side == ourOrderSide cfg.side)).length = 0 →
      (monoTick cfg activeOrderIds obs).2 =
        [TickAction.fetchOpen, TickAction.placeLadder]) ∧
    ((obs.snap1.filter (fun o => o.side == ourOrderSide cfg.side)).length ≠ 0 →
      fillDiff activeOrderIds obs.snap2 ≠ [] →
      ((monoTick cfg activeOrderIds obs).2.count TickAction.fetchOpen = 3 ∧
       (TickAction.placeLadder ∈ (monoTick cfg activeOrderIds obs).2 ↔
         (obs.recheck.filter (fun o => o.side == ourOrderSide cfg.side)).length = 0) ∧
       (monoOurSideOpen cfg activeOrderIds obs.snap2 ≠ [] →
         TickAction.cancelReq
             ((monoOurSideOpen cfg activeOrderIds obs.snap2).map OpenOrder.id) ∈
           (monoTick cfg activeOrderIds obs).2))) ∧
    ((0 < (fillDiff s.activeBidOrderIds bobs.snap1).length ∨
        0 < (fillDiff s.activeAskOrderIds bobs.snap1).length) →
      (TickAction.cancelAllSym ∈ (bothTick s bobs).2 ∧
       (TickAction.placeBoth ∈ (bothTick s bobs).2 ↔
         (bobs.cancelAllThrows = false ∧ bobs.recheck = [])))) :=
  ⟨monoTick_empty_path cfg activeOrderIds obs,
   fun h1 h2 => monoTick_fill_path cfg activeOrderIds obs h1 h2,
   fun h => bothTick_fill_path s bobs h⟩

/-- Witness for the amended C1 at concrete inputs: a mono-side tick that
detects a fill through the diff fetch makes three open-order fetches, and a
both-side tick that detects a fill issues a cancel-all. -/
theorem c1_fill_reconciliation_amended_witness :
    (monoTick { side := Side.ask, numberOfOrders := 1, driftThresholdPercent := 20 }
        ["a"]
        { snap1 := [{ id := "a", side := OrderSide.sell, price := 1 }],
          snap2 := [], recheck := [], referencePrice := 1,
          placeResult := some ["b"], cancelThrows := false }).2.count
      TickAction.fetchOpen = 3 ∧
    TickAction.cancelAllSym ∈
      (bothTick
        { activeBidOrderIds := ["b1"], activeAskOrderIds := [],
          expectedBidCount := 1, expectedAskCount := 0 }
        { snap1 := [],
          recheck := [{ id := "z", side := OrderSide.buy, price := 1 }],
          snap2 := [], placeResult := none, cancelAllThrows := false }).2 := by
  have h := c1_fill_reconciliation_amended
    { side := Side.ask, numberOfOrders := 1, driftThresholdPercent := 20 }
    ["a"]
    { snap1 := [{ id := "a", side := OrderSide.sell, price := 1 }],
      snap2 := [], recheck := [], referencePrice := 1,
      placeResult := some ["b"], cancelThrows := false }
    { activeBidOrderIds := ["b1"], activeAskOrderIds := [],
      expectedBidCount := 1, expectedAskCount := 0 }
    { snap1 := [],
      recheck := [{ id := "z", side := OrderSide.buy, price := 1 }],
      snap2 := [], placeResult := none, cancelAllThrows := false }
  exact ⟨(h.2.1 (by decide) (by decide)).1, (h.2.2 (by decide)).1⟩

theorem monoTick_tracking_invariant (cfg : MonoCfg) (activeOrderIds : List String)
    (obs : MonoTickObs) :
    (monoTick cfg activeOrderIds obs).1 = [] ∨
    (∃ ids, obs.placeResult = some ids ∧ (monoTick cfg activeOrderIds obs).1 = ids) ∨
    (monoTick cfg activeOrderIds obs).1 = activeOrderIds := by
  simp only [monoTick]
  by_cases hc1 : (obs.snap1.filter (fun o => o.side == ourOrderSide cfg.side)).length = 0
  · rw [if_pos hc1]
    cases obs.placeResult with
    | some ids => exact Or.inr (Or.inl ⟨ids, rfl, rfl⟩)
    | none => exact Or.inr (Or.inr rfl)
  · rw [if_neg hc1]
    by_cases hc2 : 0 < (fillDiff activeOrderIds obs.snap2).length
    · rw [if_pos hc2]
      by_cases hc3 : (monoOurSideOpen cfg activeOrderIds obs.snap2).length <
          activeOrderIds.length
      · rw [if_pos hc3]
        by_cases hc5 :
            (obs.recheck.filter (fun o => o.side == ourOrderSide cfg.side)).length = 0
        · rw [if_pos hc5]
          cases obs.placeResult with
          | some ids => exact Or.inr (Or.inl ⟨ids, rfl, rfl⟩)
          | none => exact Or.inl rfl
        · rw [if_neg hc5]
          exact Or.inl rfl
      · rw [if_neg hc3]
        exact Or.inl rfl
    · rw [if_neg hc2]
      by_cases hc6 : (monoOurOrders cfg activeOrderIds obs.snap1).length = 0 ∧
          0 < activeOrderIds.length
      · rw [if_pos hc6]
        exact Or.inl rfl
      · rw [if_neg hc6]
        by_cases hc7 :
            monoNeedsRefresh cfg activeOrderIds obs.snap1 obs.referencePrice = true
        · rw [if_pos hc7]
          by_cases hct : obs.cancelThrows = true
          · rw [if_pos hct]
            exact Or.inl rfl
          · rw [if_neg hct]
            by_cases hc8 :
                (obs.recheck.filter (fun o => o.side == ourOrderSide cfg.side)).length = 0
            · rw [if_pos hc8]
              cases obs.placeResult with
              | some ids => exact Or.inr (Or.inl ⟨ids, rfl, rfl⟩)
              | none => exact Or.inl rfl
            · rw [if_neg hc8]
              exact Or.inl rfl
        · rw [if_neg hc7]
          exact Or.inr (Or.inr rfl)

theorem bothTick_tracking_invariant (s : BothState) (obs : BothTickObs) :
    ((bothTick s obs).1.activeBidOrderIds = [] ∨
     (∃ p, obs.placeResult = some p ∧ (bothTick s obs).1.activeBidOrderIds = p.1) ∨
     (bothTick s obs).1.activeBidOrderIds = s.activeBidOrderIds ∨
     (bothTick s obs).1.activeBidOrderIds =
       (obs.recheck.filter (fun o => o.side == OrderSide.buy)).map OpenOrder.id) ∧
    ((bothTick s obs).1.activeAskOrderIds = [] ∨
     (∃ p, obs.placeResult = some p ∧ (bothTick s obs).1.activeAskOrderIds = p.2) ∨
     (bothTick s obs).1.activeAskOrderIds = s.activeAskOrderIds ∨
     (bothTick s obs).1.activeAskOrderIds =
       (obs.recheck.filter (fun o => o.side == OrderSide.sell)).map OpenOrder.id) := by
  simp only [bothTick, bothRefreshNoVerify]
  by_cases hd1 : 0 < (fillDiff s.activeBidOrderIds obs.snap1).length ∨
      0 < (fillDiff s.activeAskOrderIds obs.snap1).length
  · rw [if_pos hd1]
    by_cases hthrow : obs.cancelAllThrows = true
    · rw [if_pos hthrow]
      exact ⟨Or.inr (Or.inr (Or.inl rfl)), Or.inr (Or.inr (Or.inl rfl))⟩
    · rw [if_neg hthrow]
      by_cases hd2 : obs.recheck.length = 0
      · rw [if_pos hd2]
        rcases obs.placeResult with _ | ⟨bidIds, askIds⟩
        · exact ⟨Or.inr (Or.inr (Or.inl rfl)), Or.inr (Or.inr (Or.inl rfl))⟩
        · exact ⟨Or.inr (Or.inl ⟨(bidIds, askIds), rfl, rfl⟩),
            Or.inr (Or.inl ⟨(bidIds, askIds), rfl, rfl⟩)⟩
      · rw [if_neg hd2]
        exact ⟨Or.inr (Or.inr (Or.inr rfl)), Or.inr (Or.inr (Or.inr rfl))⟩
  · rw [if_neg hd1]
    by_cases hd3 : (obs.snap2.filter (fun o => o.side == OrderSide.buy &&
        s.activeBidOrderIds.contains o.id)).length = 0 ∨
        (obs.snap2.filter (fun o => o.side == OrderSide.sell &&
          s.activeAskOrderIds.contains o.id)).length = 0
    · rw [if_pos hd3]
      rcases obs.placeResult with _ | ⟨bidIds, askIds⟩
      · exact ⟨Or.inr (Or.inr (Or.inl rfl)), Or.inr (Or.inr (Or.inl rfl))⟩
      · exact ⟨Or.inr (Or.inl ⟨(bidIds, askIds), rfl, rfl⟩),
          Or.inr (Or.inl ⟨(bidIds, askIds), rfl, rfl⟩)⟩
    · rw [if_neg hd3]
      by_cases hd4 : (obs.snap2.filter (fun o => o.side == OrderSide.buy &&
          s.activeBidOrderIds.contains o.id)).length < s.expectedBidCount ∨
          (obs.snap2.filter (fun o => o.side == OrderSide.sell &&
            s.activeAskOrderIds.contains o.id)).length < s.expectedAskCount
      · rw [if_pos hd4]
        rcases obs.placeResult with _ | ⟨bidIds, askIds⟩
        · exact ⟨Or.inr (Or.inr (Or.inl rfl)), Or.inr (Or.inr (Or.inl rfl))⟩
        · exact ⟨Or.inr (Or.inl ⟨(bidIds, askIds), rfl, rfl⟩),
            Or.inr (Or.inl ⟨(bidIds, askIds), rfl, rfl⟩)⟩
      · rw [if_neg hd4]
        exact ⟨Or.inr (Or.inr (Or.inl rfl)), Or.inr (Or.inr (Or.inl rfl))⟩

theorem bothTick_snapshot_branch (s : BothState) (obs : BothTickObs)
    (h : 0 < (fillDiff s.activeBidOrderIds obs.snap1).length ∨
      0 < (fillDiff s.activeAskOrderIds obs.snap1).length)
    (hthrow : obs.cancelAllThrows = false) (hre : obs.recheck ≠ []) :
    (bothTick s obs).1.activeBidOrderIds =
      (obs.recheck.filter (fun o => o.side == OrderSide.buy)).map OpenOrder.id ∧
    (bothTick s obs).1.activeAskOrderIds =
      (obs.recheck.filter (fun o => o.side == OrderSide.sell)).map OpenOrder.id := by
  simp only [bothTick]
  rw [if_pos h, if_neg (by simp [hthrow]), if_neg (by simp [List.length_eq_zero, hre])]
  exact ⟨rfl, rfl⟩

/-- C3 fails as stated: when the both-side loop detects a fill but the
post-cancel re-verification still shows resting orders, it assigns the
tracked sets from that exchange snapshot — here the tracked bid set becomes
the snapshot id `"z"`, which is neither empty, nor the ids of any placement,
nor the previous tracked set. -/
theorem c3_counterexample :
    ¬ (∀ (s : BothState) (obs : BothTickObs),
        (bothTick s obs).1.activeBidOrderIds = [] ∨
        (∃ p, obs.placeResult = some p ∧ (bothTick s obs).1.activeBidOrderIds = p.1) ∨
        (bothTick s obs).1.activeBidOrderIds = s.activeBidOrderIds) := by
  intro h
  have h2 := h
    { activeBidOrderIds := ["b1", "b2"], activeAskOrderIds := [],
      expectedBidCount := 2, expectedAskCount := 0 }
    { snap1 := [{ id := "b1", side := OrderSide.buy, price := 1 }],
      recheck := [{ id := "z", side := OrderSide.buy, price := 1 }],
      snap2 := [], placeResult := none, cancelAllThrows := false }
  have heval : (bothTick
      { activeBidOrderIds := ["b1", "b2"], activeAskOrderIds := [],
        expectedBidCount := 2, expectedAskCount := 0 }
      { snap1 := [{ id := "b1", side := OrderSide.buy, price := 1 }],
        recheck := [{ id := "z", side := OrderSide.buy, price := 1 }],
        snap2 := [], placeResult := none,
        cancelAllThrows := false }).1.activeBidOrderIds = ["z"] := by decide
  rcases h2 with h2 | ⟨p, hp, _⟩ | h2
  · rw [heval] at h2
    exact absurd h2 (by decide)
  · simp at hp
  · rw [heval] at h2
    exact absurd h2 (by decide)

/-- C3 amended: the mono-side loop keeps the invariant — at the end of any
tick the tracked set is empty, or the ids of a placement made this tick, or
the unchanged previous set (itself the most recent successful placement).
The both-side loop keeps the same invariant per side except in one branch:
when a fill is detected, the cancel-all succeeds and the re-verification
snapshot is non-empty, the tracked sets are reassigned from that exchange
snapshot (its buys for the bid side, its sells for the ask side). -/
theorem c3_tracking_amended (cfg : MonoCfg) (activeOrderIds : List String)
    (obs : MonoTickObs) (s : BothState) (bobs : BothTickObs) :
    ((monoTick cfg activeOrderIds obs).1 = [] ∨
     (∃ ids, obs.placeResult = some ids ∧ (monoTick cfg activeOrderIds obs).1 = ids) ∨
     (monoTick cfg activeOrderIds obs).1 = activeOrderIds) ∧
    ((0 < (fillDiff s.activeBidOrderIds bobs.snap1).length ∨
        0 < (fillDiff s.activeAskOrderIds bobs.snap1).length) →
      bobs.cancelAllThrows = false → bobs.recheck ≠ [] →
      (bothTick s bobs).1.activeBidOrderIds =
        (bobs.recheck.filter (fun o => o.side == OrderSide.buy)).map OpenOrder.id ∧
      (bothTick s bobs).1.activeAskOrderIds =
        (bobs.recheck.filter (fun o => o.side == OrderSide.sell)).map OpenOrder.id) ∧
    (((bothTick s bobs).1.activeBidOrderIds = [] ∨
      (∃ p, bobs.placeResult = some p ∧ (bothTick s bobs).1.activeBidOrderIds = p.1) ∨
      (bothTick s bobs).1.activeBidOrderIds = s.activeBidOrderIds ∨
      (bothTick s bobs).1.activeBidOrderIds =
        (bobs.recheck.filter (fun o => o.side == OrderSide.buy)).map OpenOrder.id) ∧
     ((bothTick s bobs).1.activeAskOrderIds = [] ∨
      (∃ p, bobs.placeResult = some p ∧ (bothTick s bobs).1.activeAskOrderIds = p.2) ∨
      (bothTick s bobs).1.activeAskOrderIds = s.activeAskOrderIds ∨
      (bothTick s bobs).1.activeAskOrderIds =
        (bobs.recheck.filter (fun o => o.side == OrderSide.sell)).map OpenOrder.id)) :=
  ⟨monoTick_tracking_invariant cfg activeOrderIds obs,
   fun h hthrow hre => bothTick_snapshot_branch s bobs h hthrow hre,
   bothTick_tracking_invariant s bobs⟩

/-- Witness for the amended C3 at concrete inputs: the snapshot-reassignment
branch of the both-side loop. -/
theorem c3_tracking_amended_witness :
    (bothTick
      { activeBidOrderIds := ["b1", "b2"], activeAskOrderIds := [],
        expectedBidCount := 2, expectedAskCount := 0 }
      { snap1 := [{ id := "b1", side := OrderSide.buy, price := 1 }],
        recheck := [{ id := "z", side := OrderSide.buy, price := 1 }],
        snap2 := [], placeResult := none,
        cancelAllThrows := false }).1.activeBidOrderIds =
      (([{ id := "z", side := OrderSide.buy, price := 1 }] : List OpenOrder).filter
        (fun o => o.side == OrderSide.buy)).map OpenOrder.id := by
  have h := c3_tracking_amended
    { side := Side.ask, numberOfOrders := 1, driftThresholdPercent := 20 } []
    { snap1 := [], snap2 := [], recheck := [], referencePrice := 1,
      placeResult := none, cancelThrows := false }
    { activeBidOrderIds := ["b1", "b2"], activeAskOrderIds := [],
      expectedBidCount := 2, expectedAskCount := 0 }
    { snap1 := [{ id := "b1", side := OrderSide.buy, price := 1 }],
      recheck := [{ id := "z", side := OrderSide.buy, price := 1 }],
      snap2 := [], placeResult := none, cancelAllThrows := false }
  exact (h.2.1 (by decide) (by decide) (by decide)).1

theorem monoNeedsRefresh_drift25_eval :
    monoNeedsRefresh { side := Side.ask, numberOfOrders := 1, driftThresholdPercent := 20 }
      ["a1"] [{ id := "a1", side := OrderSide.sell, price := 5/4 }] 1 = true := by
  norm_num [monoNeedsRefresh, monoOurOrders, List.min?, ourOrderSide, List.filter]

theorem monoNeedsRefresh_drift15_eval :
    monoNeedsRefresh { side := Side.ask, numberOfOrders := 1, driftThresholdPercent := 20 }
      ["a1"] [{ id := "a1", side := OrderSide.sell, price := 23/20 }] 1 = false := by
  norm_num [monoNeedsRefresh, monoOurOrders, List.min?, ourOrderSide, List.filter]

/-- C4 is right about the mono-side loop and wrong about the both-side loop,
and the both-side code contradicts its own README ("Price Drift - If either
side drifts beyond threshold -> refresh both"): with threshold 20 and
reference 1.00, a mono-side tick whose nearest ask rests at 1.25 cancels and
replaces the ladder while one at 1.15 leaves it alone; a both-side tick with
full ladders and its nearest ask at 1.25 performs only its two snapshot
fetches — it never resolves a reference price, computes no drift, and takes
no action. -/
theorem c4_drift_check_divergence :
    monoTick { side := Side.ask, numberOfOrders := 1, driftThresholdPercent := 20 }
      ["a1"]
      { snap1 := [{ id := "a1", side := OrderSide.sell, price := 5/4 }],
        snap2 := [{ id := "a1", side := OrderSide.sell, price := 5/4 }],
        recheck := [], referencePrice := 1, placeResult := some ["a2"],
        cancelThrows := false } =
      (["a2"],
       [TickAction.fetchOpen, TickAction.fetchOpen, TickAction.fetchTicker,
        TickAction.cancelReq ["a1"], TickAction.fetchOpen, TickAction.placeLadder]) ∧
    monoTick { side := Side.ask, numberOfOrders := 1, driftThresholdPercent := 20 }
      ["a1"]
      { snap1 := [{ id := "a1", side := OrderSide.sell, price := 23/20 }],
        snap2 := [{ id := "a1", side := OrderSide.sell, price := 23/20 }],
        recheck := [], referencePrice := 1, placeResult := some ["a2"],
        cancelThrows := false } =
      (["a1"], [TickAction.fetchOpen, TickAction.fetchOpen, TickAction.fetchTicker]) ∧
    bothTick
      { activeBidOrderIds := ["b1"], activeAskOrderIds := ["a1"],
        expectedBidCount := 1, expectedAskCount := 1 }
      { snap1 := [{ id := "b1", side := OrderSide.buy, price := 3/4 },
                  { id := "a1", side := OrderSide.sell, price := 5/4 }],
        recheck := [],
        snap2 := [{ id := "b1", side := OrderSide.buy, price := 3/4 },
                  { id := "a1", side := OrderSide.sell, price := 5/4 }],
        placeResult := none, cancelAllThrows := false } =
      ({ activeBidOrderIds := ["b1"], activeAskOrderIds := ["a1"],
         expectedBidCount := 1, expectedAskCount := 1 },
       [TickAction.fetchOpen, TickAction.fetchOpen]) ∧
    TickAction.fetchTicker ∉
      (bothTick
        { activeBidOrderIds := ["b1"], activeAskOrderIds := ["a1"],
          expectedBidCount := 1, expectedAskCount := 1 }
        { snap1 := [{ id := "b1", side := OrderSide.buy, price := 3/4 },
                    { id := "a1", side := OrderSide.sell, price := 5/4 }],
          recheck := [],
          snap2 := [{ id := "b1", side := OrderSide.buy, price := 3/4 },
                    { id := "a1", side := OrderSide.sell, price := 5/4 }],
          placeResult := none, cancelAllThrows := false }).2 := by
  refine ⟨?_, ?_, ?_, ?_⟩
  · simp only [monoTick]
    rw [if_neg (by decide), if_neg (by decide), if_neg (by decide),
      if_pos monoNeedsRefresh_drift25_eval, if_neg (by decide), if_pos (by decide)]
    rfl
  · simp only [monoTick]
    rw [if_neg (by decide), if_neg (by decide), if_neg (by decide),
      if_neg (by simp [monoNeedsRefresh_drift15_eval])]
  · decide
  · decide

/-- C9 fails as stated: the mono-side monitor callback has no reentrancy
guard, so a tick firing while the previous one is still executing runs the
full body anyway — at the concrete input below it fetches open orders and
replaces the tracked state instead of being skipped.  (In the both-side bot,
only the heartbeat cycle counter is touched before the guard; the quoting
state is untouched on a skipped tick.) -/
theorem c9_counterexample :
    ¬ (∀ (cfg : MonoCfg) (activeOrderIds : List String) (obs : MonoTickObs),
        (monoTickGuarded true cfg activeOrderIds obs).1 = activeOrderIds ∧
        (monoTickGuarded true cfg activeOrderIds obs).2 = []) := by
  intro h
  have h2 := h { side := Side.ask, numberOfOrders := 1, driftThresholdPercent := 20 }
    ["a"]
    { snap1 := [], snap2 := [], recheck := [], referencePrice := 1,
      placeResult := some ["b"], cancelThrows := false }
  exact absurd h2.2 (by decide)

/-- C9 amended: the both-side loop skips a tick entirely while the previous
tick is still processing — no quoting-state mutation and no exchange call —
whereas the mono-side loop has no reentrancy guard at all: its tick body runs
identically whether or not the previous tick is still executing. -/
theorem c9_reentrancy_amended :
    (∀ (s : BothState) (obs : BothTickObs), bothTickGuarded true s obs = (s, [])) ∧
    (∀ (busy : Bool) (cfg : MonoCfg) (activeOrderIds : List String)
      (obs : MonoTickObs),
      monoTickGuarded busy cfg activeOrderIds obs = monoTick cfg activeOrderIds obs) :=
  ⟨fun _ _ => rfl, fun _ _ _ _ => rfl⟩

end AlgoVista
